import Mathlib

/-!
Shallow embedding of the error-learning subsystem of the MCP_MERCADOLIBRE
repository: `src/models/errors.py`, `src/tools/error_manager.py`,
`src/tools/error_tools.py` and `src/tools/error_wrapper.py`.

Modelling conventions:
* Python machine floats that only ever hold exact ratios of small naturals
  (the similarity score `matches / len(search_terms)`) are modelled as `Rat`.
* ISO-8601 timestamp strings (always produced by `datetime.now().isoformat()`
  in a single fixed format, where lexicographic string order coincides with
  chronological order) are modelled as `Nat`, with `timedelta(days = d)`
  subtraction modelled as truncated subtraction of `d`.
* A Python `dict` is modelled as an insertion-ordered association list.
* Python exceptions are modelled by their observable pair
  (type name, `str(error)`), and `async` control flow with `try`/`except`
  is modelled by `Except`.
-/

namespace MLErrors

/-- `ErrorCategory` enumeration from `src/models/errors.py`. -/
inductive ErrorCategory where
  | navigation
  | selector
  | extraction
  | search
  | pagination
  | browser
  | unknown
deriving DecidableEq, Repr

/-- The `.value` string of an `ErrorCategory` member. -/
def ErrorCategory.value : ErrorCategory → String
  | .navigation => "navigation"
  | .selector => "selector"
  | .extraction => "extraction"
  | .search => "search"
  | .pagination => "pagination"
  | .browser => "browser"
  | .unknown => "unknown"

/-- `ErrorCategory(s)`: enum lookup by value, `none` when `s` is not a
member value (Python raises `ValueError` there). -/
def ErrorCategory.fromValue : String → Option ErrorCategory
  | "navigation" => some .navigation
  | "selector" => some .selector
  | "extraction" => some .extraction
  | "search" => some .search
  | "pagination" => some .pagination
  | "browser" => some .browser
  | "unknown" => some .unknown
  | _ => none

/-- `ErrorSeverity` enumeration from `src/models/errors.py`. -/
inductive ErrorSeverity where
  | low
  | medium
  | high
  | critical
deriving DecidableEq, Repr

/-- The `.value` string of an `ErrorSeverity` member. -/
def ErrorSeverity.value : ErrorSeverity → String
  | .low => "low"
  | .medium => "medium"
  | .high => "high"
  | .critical => "critical"

/-- `ErrorSeverity(s)`: enum lookup by value. -/
def ErrorSeverity.fromValue : String → Option ErrorSeverity
  | "low" => some .low
  | "medium" => some .medium
  | "high" => some .high
  | "critical" => some .critical
  | _ => none

/-- A Python exception as observed by this subsystem:
`kind` is `type(error).__name__` and `msg` is `str(error)`. -/
structure Exc where
  kind : String
  msg : String
deriving DecidableEq, Repr

/-- `context_info : Dict[str, Any]`, restricted to the string-valued
entries the subsystem reads; insertion-ordered association list. -/
abbrev ContextInfo := List (String × String)

/-- `context.get(key)`. -/
def ContextInfo.get (c : ContextInfo) (k : String) : Option String :=
  List.lookup k c

/-- `ErrorPattern` dataclass from `src/models/errors.py`.
Timestamps are modelled as `Nat` (see module conventions). -/
structure ErrorPattern where
  error_id : String
  category : ErrorCategory
  severity : ErrorSeverity
  error_message : String
  original_error : String
  context_info : ContextInfo
  solution : Option String := none
  prevention_tips : List String := []
  frequency : Nat := 1
  first_seen : Nat
  last_seen : Nat
  tool_name : Option String := none
  page_type : Option String := none
  query_context : Option String := none
deriving DecidableEq, Repr

/-- `ErrorRecommendation` dataclass from `src/models/errors.py`. -/
structure ErrorRecommendation where
  recommendation_id : String
  title : String
  description : String
  related_errors : List String
  prevention_steps : List String
  applicable_contexts : List String
  priority : Nat := 1
deriving DecidableEq, Repr

/-! ### String helpers mirroring the Python primitives used by the code -/

/-- Python substring test `needle in hay` on lists of characters. -/
def charsContain (hay needle : List Char) : Bool :=
  match hay with
  | [] => needle.isEmpty
  | _ :: t => needle.isPrefixOf hay || charsContain t needle

/-- Python substring test `needle in hay` on strings. -/
def strContains (hay needle : String) : Bool :=
  charsContain hay.data needle.data

/-- Python `s.lower()`, on the ASCII range (the repository's keyword
matching is ASCII apart from literal lowercase accented words). -/
def strLower (s : String) : String :=
  ⟨s.data.map Char.toLower⟩

/-- Python code-point slicing `s[:n]`. -/
def strTake (s : String) (n : Nat) : String :=
  ⟨s.data.take n⟩

/-- Accumulator pass of `splitWs`: `cur` holds the current token reversed. -/
def splitWsAux : List Char → List Char → List String
  | [], cur => if cur = [] then [] else [⟨cur.reverse⟩]
  | c :: rest, cur =>
    if c.isWhitespace then
      (if cur = [] then [] else [⟨cur.reverse⟩]) ++ splitWsAux rest []
    else splitWsAux rest (c :: cur)

/-- Python `s.split()`: split on whitespace runs, dropping empty pieces. -/
def splitWs (s : String) : List String :=
  splitWsAux s.data []

/-- Python string comparison `s < t` (lexicographic on code points). -/
def charsLt : List Char → List Char → Bool
  | [], [] => false
  | [], _ :: _ => true
  | _ :: _, [] => false
  | a :: as, b :: bs =>
    if a.toNat < b.toNat then true
    else if b.toNat < a.toNat then false
    else charsLt as bs

/-! ### MD5, as used by `hashlib.md5(...).hexdigest()` -/

/-- UTF-8 encoding of one character (RFC 3629), as `str.encode()` does. -/
def utf8Char (c : Char) : List Nat :=
  let n := c.toNat
  if n < 128 then [n]
  else if n < 2048 then
    [192 + n / 64, 128 + n % 64]
  else if n < 65536 then
    [224 + n / 4096, 128 + (n / 64) % 64, 128 + n % 64]
  else
    [240 + n / 262144, 128 + (n / 4096) % 64, 128 + (n / 64) % 64, 128 + n % 64]

/-- UTF-8 encoding of a string as a byte list. -/
def utf8Bytes (s : String) : List Nat :=
  s.data.foldr (fun c acc => utf8Char c ++ acc) []

/-- The 64 MD5 sine constants `K[i] = floor(abs(sin(i + 1)) * 2^32)`. -/
def md5K : List Nat :=
  [0xd76aa478, 0xe8c7b756, 0x242070db, 0xc1bdceee,
   0xf57c0faf, 0x4787c62a, 0xa8304613, 0xfd469501,
   0x698098d8, 0x8b44f7af, 0xffff5bb1, 0x895cd7be,
   0x6b901122, 0xfd987193, 0xa679438e, 0x49b40821,
   0xf61e2562, 0xc040b340, 0x265e5a51, 0xe9b6c7aa,
   0xd62f105d, 0x02441453, 0xd8a1e681, 0xe7d3fbc8,
   0x21e1cde6, 0xc33707d6, 0xf4d50d87, 0x455a14ed,
   0xa9e3e905, 0xfcefa3f8, 0x676f02d9, 0x8d2a4c8a,
   0xfffa3942, 0x8771f681, 0x6d9d6122, 0xfde5380c,
   0xa4beea44, 0x4bdecfa9, 0xf6bb4b60, 0xbebfbc70,
   0x289b7ec6, 0xeaa127fa, 0xd4ef3085, 0x04881d05,
   0xd9d4d039, 0xe6db99e5, 0x1fa27cf8, 0xc4ac5665,
   0xf4292244, 0x432aff97, 0xab9423a7, 0xfc93a039,
   0x655b59c3, 0x8f0ccc92, 0xffeff47d, 0x85845dd1,
   0x6fa87e4f, 0xfe2ce6e0, 0xa3014314, 0x4e0811a1,
   0xf7537e82, 0xbd3af235, 0x2ad7d2bb, 0xeb86d391]

/-- The 64 MD5 per-round left-rotation amounts. -/
def md5S : List Nat :=
  [7, 12, 17, 22, 7, 12, 17, 22, 7, 12, 17, 22, 7, 12, 17, 22,
   5, 9, 14, 20, 5, 9, 14, 20, 5, 9, 14, 20, 5, 9, 14, 20,
   4, 11, 16, 23, 4, 11, 16, 23, 4, 11, 16, 23, 4, 11, 16, 23,
   6, 10, 15, 21, 6, 10, 15, 21, 6, 10, 15, 21, 6, 10, 15, 21]

/-- 32-bit complement. -/
def not32 (x : Nat) : Nat := Nat.xor 0xffffffff x

/-- 32-bit left rotation by `r` places. -/
def rotl32 (r x : Nat) : Nat :=
  Nat.lor (Nat.shiftLeft x r % 4294967296) (Nat.shiftRight (x % 4294967296) (32 - r))

/-- MD5 padding: append `0x80`, zero-fill to 56 mod 64, then the original
bit length as 8 little-endian bytes. -/
def md5Pad (m : List Nat) : List Nat :=
  let L := m.length
  let zeros := (55 + 64 - L % 64) % 64
  let bitLen := 8 * L
  m ++ [0x80] ++ List.replicate zeros 0 ++
    (List.range 8).map (fun i => Nat.shiftRight bitLen (8 * i) % 256)

/-- Split a byte list into 64-byte chunks (input length is a multiple of 64). -/
def md5Chunks (fuel : Nat) (m : List Nat) : List (List Nat) :=
  match fuel with
  | 0 => []
  | fuel + 1 =>
    match m with
    | [] => []
    | _ => m.take 64 :: md5Chunks fuel (m.drop 64)

/-- The `g`-th little-endian 32-bit word of a 64-byte chunk. -/
def md5Word (chunk : List Nat) (g : Nat) : Nat :=
  chunk.getD (4 * g) 0 + 256 * chunk.getD (4 * g + 1) 0 +
    65536 * chunk.getD (4 * g + 2) 0 + 16777216 * chunk.getD (4 * g + 3) 0

/-- One of the 64 MD5 rounds on state `(a, b, c, d)`. -/
def md5Round (chunk : List Nat) (st : Nat × Nat × Nat × Nat) (i : Nat) :
    Nat × Nat × Nat × Nat :=
  let (a, b, c, d) := st
  let fg : Nat × Nat :=
    if i < 16 then (Nat.lor (Nat.land b c) (Nat.land (not32 b) d), i)
    else if i < 32 then (Nat.lor (Nat.land d b) (Nat.land (not32 d) c), (5 * i + 1) % 16)
    else if i < 48 then (Nat.xor (Nat.xor b c) d, (3 * i + 5) % 16)
    else (Nat.xor c (Nat.lor b (not32 d)), (7 * i) % 16)
  let f := (fg.1 + a + md5K.getD i 0 + md5Word chunk fg.2) % 4294967296
  (d, (b + rotl32 (md5S.getD i 0) f) % 4294967296, b, c)

/-- MD5 compression of one 64-byte chunk into the running state. -/
def md5Compress (st : Nat × Nat × Nat × Nat) (chunk : List Nat) :
    Nat × Nat × Nat × Nat :=
  let (a0, b0, c0, d0) := st
  let (a, b, c, d) := (List.range 64).foldl (md5Round chunk) st
  ((a0 + a) % 4294967296, (b0 + b) % 4294967296,
   (c0 + c) % 4294967296, (d0 + d) % 4294967296)

/-- Hex digit character for a value below 16. -/
def hexDigit (n : Nat) : Char :=
  "0123456789abcdef".data.getD n '0'

/-- Two lowercase hex digits of a byte. -/
def hexByte (b : Nat) : List Char :=
  [hexDigit (b / 16), hexDigit (b % 16)]

/-- The 16 digest bytes of an MD5 state, little-endian per word. -/
def md5DigestBytes (st : Nat × Nat × Nat × Nat) : List Nat :=
  let le4 := fun (w : Nat) => [w % 256, w / 256 % 256, w / 65536 % 256, w / 16777216 % 256]
  le4 st.1 ++ le4 st.2.1 ++ le4 st.2.2.1 ++ le4 st.2.2.2

/-- `hashlib.md5(s.encode()).hexdigest()`: the 32-character lowercase
hexadecimal MD5 digest of the UTF-8 encoding of `s`. -/
def md5Hex (s : String) : String :=
  let padded := md5Pad (utf8Bytes s)
  let chunks := md5Chunks (padded.length) padded
  let st := chunks.foldl md5Compress (0x67452301, 0xefcdab89, 0x98badcfe, 0x10325476)
  ⟨(md5DigestBytes st).foldr (fun b acc => hexByte b ++ acc) []⟩

/-! ### `CommonErrorManager` (`src/tools/error_manager.py`)

The manager's mutable `error_patterns : Dict[str, ErrorPattern]` is modelled
as an insertion-ordered association list threaded through the operations,
and `datetime.now()` is passed in explicitly as a `Nat` timestamp. -/

/-- The in-memory store `self.error_patterns`. -/
abbrev Store := List (String × ErrorPattern)

/-- `CommonErrorManager._generate_error_signature`: the first 12 hex
characters of the MD5 of
`f"\x7btype(error).__name__\x7d:\x7bstr(error)[:100]\x7d:\x7btool_name\x7d:\x7bcontext.get('page_type', 'unknown')\x7d"`. -/
def generate_error_signature (error : Exc) (tool_name : String)
    (context : ContextInfo) : String :=
  let signature_data :=
    error.kind ++ ":" ++ strTake error.msg 100 ++ ":" ++ tool_name ++ ":" ++
      ((context.get "page_type").getD "unknown")
  strTake (md5Hex signature_data) 12

/-- Python `any(word in error_str for word in words)`. -/
def anyWordIn (error_str : String) (words : List String) : Bool :=
  words.any (fun w => strContains error_str w)

/-- `CommonErrorManager._categorize_error`. -/
def categorize_error (error : Exc) (_tool_name : String) : ErrorCategory :=
  let error_str := strLower error.msg
  if anyWordIn error_str ["navigate", "navegar", "url", "página"] then .navigation
  else if anyWordIn error_str ["selector", "query_selector", "elemento"] then .selector
  else if anyWordIn error_str ["extract", "extracción", "datos"] then .extraction
  else if anyWordIn error_str ["search", "búsqueda", "buscar"] then .search
  else if anyWordIn error_str ["pagination", "paginación", "siguiente", "anterior"] then .pagination
  else if anyWordIn error_str ["browser", "playwright", "chromium"] then .browser
  else .unknown

/-- `CommonErrorManager._determine_severity`. -/
def determine_severity (error : Exc) (category : ErrorCategory) : ErrorSeverity :=
  let error_str := strLower error.msg
  if anyWordIn error_str ["crash", "fatal", "browser closed"] then .critical
  else if anyWordIn error_str ["timeout", "connection", "network"] then .high
  else if category = .navigation then .high
  else if category = .selector then
    if strContains error_str "not found" || strContains error_str "no encontr" then .medium
    else .low
  else .medium

/-- The per-category solution strings of
`CommonErrorManager._generate_solution_and_tips` (`solutions.get(category)`). -/
def solutionFor : ErrorCategory → Option String
  | .navigation => some "Verificar que la URL sea de MercadoLibre México y esté accesible."
  | .selector => some "Usar selectores más específicos o probar selectores alternativos."
  | .extraction => some "Asegurar que la página esté completamente cargada antes de extraer."
  | .search => some "Verificar que esté en la página principal antes de buscar."
  | .pagination => some "Confirmar que existen más páginas antes de navegar."
  | .browser => some "Reinicializar el navegador si es necesario."
  | .unknown => none

/-- The per-category tip lists of `CommonErrorManager._generate_solution_and_tips`
(`tips_by_category.get(category, [...])`). -/
def tipsFor : ErrorCategory → List String
  | .navigation =>
    ["Siempre verificar que la URL contenga mercadolibre.com.mx",
     "Esperar a que la página cargue completamente antes de continuar",
     "Usar get_current_page_info() para verificar el estado de la página"]
  | .selector =>
    ["Usar discover_selectors() para encontrar selectores válidos",
     "Probar test_selector() antes de usar un selector en extracción",
     "Verificar que los elementos sean visibles con check_visibility=True"]
  | .extraction =>
    ["Confirmar que hay productos en la página antes de extraer",
     "Usar límites razonables en extract_products()",
     "Verificar el page_type antes de extraer datos"]
  | .search =>
    ["Navegar a la página principal antes de buscar",
     "Usar términos de búsqueda claros y en español",
     "Verificar que aparezcan resultados después de buscar"]
  | .pagination =>
    ["Verificar que haya enlaces de navegación disponibles",
     "Comprobar el número de página actual antes de navegar",
     "Usar get_current_page_info() para verificar el contexto"]
  | _ => ["Revisar la documentación de la herramienta."]

/-- `CommonErrorManager._generate_solution_and_tips`: category solution and
tips, with error-text specific tips appended. -/
def generate_solution_and_tips (error : Exc) (_tool_name : String)
    (category : ErrorCategory) : Option String × List String :=
  let error_str := strLower error.msg
  let solution := solutionFor category
  let tips := tipsFor category
  let tips :=
    if strContains error_str "timeout" then
      tips ++ ["Aumentar el timeout o verificar la conexión de red"]
    else tips
  let tips :=
    if strContains error_str "not found" || strContains error_str "no encontr" then
      tips ++ ["Verificar que el elemento exista en la página actual"]
    else tips
  (solution, tips)

/-- `dict[key] = value` on an existing key: replace the first binding. -/
def updateFirst (store : Store) (key : String) (f : ErrorPattern → ErrorPattern) :
    Store :=
  match store with
  | [] => []
  | kp :: rest =>
    if kp.1 = key then (kp.1, f kp.2) :: rest
    else kp :: updateFirst rest key f

/-- The update applied to an existing pattern by `capture_error`:
`pattern.frequency += 1; pattern.last_seen = current_time`. -/
def bumpPattern (now : Nat) (p : ErrorPattern) : ErrorPattern :=
  { p with frequency := p.frequency + 1, last_seen := now }

/-- The fresh `ErrorPattern` built by `capture_error` for a new signature
(dataclass defaults fill `frequency = 1` and `first_seen`/`last_seen` with
the capture time). -/
def newPattern (error : Exc) (tool_name : String) (context_info : ContextInfo)
    (user_query : Option String) (now : Nat) (sig : String) : ErrorPattern :=
  let category := categorize_error error tool_name
  let severity := determine_severity error category
  let st := generate_solution_and_tips error tool_name category
  { error_id := sig
    category := category
    severity := severity
    error_message := error.msg
    original_error := error.kind
    context_info := context_info
    solution := st.1
    prevention_tips := st.2
    frequency := 1
    first_seen := now
    last_seen := now
    tool_name := some tool_name
    page_type := context_info.get "page_type"
    query_context := user_query }

/-- `CommonErrorManager.capture_error` acting on the store; returns the new
store and the returned signature. (`save_errors` is a side effect on disk
that does not change the in-memory store.) -/
def capture_error (error : Exc) (tool_name : String) (context_info : ContextInfo)
    (user_query : Option String) (now : Nat) (store : Store) : Store × String :=
  let sig := generate_error_signature error tool_name context_info
  match List.lookup sig store with
  | some _ => (updateFirst store sig (bumpPattern now), sig)
  | none => (store ++ [(sig, newPattern error tool_name context_info user_query now sig)], sig)

/-- The sort key of `get_prevention_advice`:
`(x.frequency, x.severity.value)` — note the *string* severity value. -/
def adviceKey (p : ErrorPattern) : Nat × String :=
  (p.frequency, p.severity.value)

/-- `list.sort(key = ..., reverse = True)` comparator: `a` may precede `b`
when `key b <= key a` in the tuple order Python uses (strings compared
lexicographically by code point). -/
def adviceBefore (a b : ErrorPattern) : Prop :=
  (adviceKey b).1 < (adviceKey a).1 ∨
    ((adviceKey b).1 = (adviceKey a).1 ∧
      charsLt (adviceKey a).2.data (adviceKey b).2.data = false)

instance : DecidableRel adviceBefore := fun a b => by
  unfold adviceBefore; exact inferInstance

/-- `CommonErrorManager.get_prevention_advice`. -/
def get_prevention_advice (tool_name : String) (_context_info : ContextInfo)
    (_user_query : Option String) (store : Store) : List ErrorRecommendation :=
  let relevant_errors := (store.map Prod.snd).filter
    (fun p => p.tool_name = some tool_name ∧ p.frequency > 1)
  let sorted := List.insertionSort adviceBefore relevant_errors
  (sorted.take 5).enum.map (fun ip =>
    { recommendation_id := "rec_" ++ ip.2.error_id
      title := "Evitar: " ++ ip.2.error_message
      description := "Este error ha ocurrido " ++ toString ip.2.frequency ++
        " veces. " ++ (ip.2.solution.getD "Revisar el contexto antes de proceder.")
      related_errors := [ip.2.error_id]
      prevention_steps := ip.2.prevention_tips
      applicable_contexts := [ip.2.page_type.getD "cualquier página"]
      priority := 5 - ip.1 })

/-! ### Learning suggestions (`_generate_learning_suggestions`) -/

/-- The frequent-errors suggestion string, parameterized by the count. -/
def freqMsg (n : Nat) : String :=
  "Se han identificado " ++ toString n ++
    " errores frecuentes. Considera revisar la lógica de estas operaciones."

/-- The most-problematic-category suggestion string. -/
def catMsg (c : String) : String :=
  "La categoría más problemática es " ++ c ++ ". Considera mejorar el manejo en esta área."

/-- The recent-errors suggestion string. -/
def recentMsg : String :=
  "Muchos errores son recientes. Puede haber cambios en el sitio web o en el código."

/-- One step of building `category_counts`:
`category_counts[cat] = category_counts.get(cat, 0) + 1`. -/
def categoryBump (acc : List (String × Nat)) (p : ErrorPattern) :
    List (String × Nat) :=
  let k := p.category.value
  match List.lookup k acc with
  | some n => acc.map (fun kv => if kv.1 = k then (kv.1, n + 1) else kv)
  | none => acc ++ [(k, 1)]

/-- Build `category_counts` as Python does: a dict keyed by
`pattern.category.value` in first-occurrence order. -/
def categoryCounts (patterns : List ErrorPattern) : List (String × Nat) :=
  patterns.foldl categoryBump []

/-- `max(keys, key = lambda x: counts[x])`: first key attaining the maximal
count, in dict iteration order. -/
def maxByCount (counts : List (String × Nat)) : Option String :=
  match counts with
  | [] => none
  | c :: cs => some (cs.foldl (fun best kv => if best.2 < kv.2 then kv else best) c).1

/-- `CommonErrorManager._generate_learning_suggestions`; `now` is the
current time as a day-granularity timestamp. -/
def generate_learning_suggestions (now : Nat) (patterns : List ErrorPattern) :
    List String :=
  if patterns = [] then ["Aún no hay suficientes datos para generar sugerencias."]
  else
    let high_frequency_errors := patterns.filter (fun p => 3 ≤ p.frequency)
    let s1 := if high_frequency_errors ≠ [] then [freqMsg high_frequency_errors.length] else []
    let s2 :=
      match maxByCount (categoryCounts patterns) with
      | some c => [catMsg c]
      | none => []
    let recent_patterns := patterns.filter (fun p => now - 3 ≤ p.last_seen)
    let s3 := if patterns.length < 2 * recent_patterns.length then [recentMsg] else []
    s1 ++ s2 ++ s3

/-! ### Persistence (`load_errors` / `save_errors`) -/

/-- One value of the on-disk JSON document: the `asdict` of an
`ErrorPattern` with `category` and `severity` replaced by their `.value`
strings. -/
structure PatternDoc where
  error_id : String
  category : String
  severity : String
  error_message : String
  original_error : String
  context_info : ContextInfo
  solution : Option String
  prevention_tips : List String
  frequency : Nat
  first_seen : Nat
  last_seen : Nat
  tool_name : Option String
  page_type : Option String
  query_context : Option String
deriving DecidableEq, Repr

/-- Serialization of one pattern in `save_errors`. -/
def savePattern (p : ErrorPattern) : PatternDoc :=
  { error_id := p.error_id
    category := p.category.value
    severity := p.severity.value
    error_message := p.error_message
    original_error := p.original_error
    context_info := p.context_info
    solution := p.solution
    prevention_tips := p.prevention_tips
    frequency := p.frequency
    first_seen := p.first_seen
    last_seen := p.last_seen
    tool_name := p.tool_name
    page_type := p.page_type
    query_context := p.query_context }

/-- `CommonErrorManager.save_errors`: the document written to disk. -/
def save_errors (store : Store) : List (String × PatternDoc) :=
  store.map (fun kp => (kp.1, savePattern kp.2))

/-- Parsing of one loaded entry:
`ErrorCategory(data['category'])` / `ErrorSeverity(data['severity'])`
raise on unrecognized values, modelled by `none`. -/
def parsePattern (d : PatternDoc) : Option ErrorPattern := do
  let category ← ErrorCategory.fromValue d.category
  let severity ← ErrorSeverity.fromValue d.severity
  pure
    { error_id := d.error_id
      category := category
      severity := severity
      error_message := d.error_message
      original_error := d.original_error
      context_info := d.context_info
      solution := d.solution
      prevention_tips := d.prevention_tips
      frequency := d.frequency
      first_seen := d.first_seen
      last_seen := d.last_seen
      tool_name := d.tool_name
      page_type := d.page_type
      query_context := d.query_context }

/-- Sequential parse of the document body; `none` as soon as one entry
raises. -/
def parseAll (doc : List (String × PatternDoc)) : Option Store :=
  match doc with
  | [] => some []
  | (k, d) :: rest => do
    let p ← parsePattern d
    let st ← parseAll rest
    pure ((k, p) :: st)

/-- `CommonErrorManager.load_errors` on a fresh manager: `none` models a
missing or unparseable file (the store stays empty); a document whose
parsing raises anywhere leaves the `except` handler's empty store. -/
def load_errors (file : Option (List (String × PatternDoc))) : Store :=
  match file with
  | none => []
  | some doc =>
    match parseAll doc with
    | some st => st
    | none => []

/-- `CommonErrorManager.clear_old_errors`: drops patterns with
`last_seen < cutoff` and `frequency == 1`; the Boolean reports whether
`save_errors` was called (something was removed). -/
def clear_old_errors (now days : Nat) (store : Store) : Store × Bool :=
  let cutoff_date := now - days
  let old_errors := store.filter
    (fun kp => kp.2.last_seen < cutoff_date ∧ kp.2.frequency = 1)
  (store.filter (fun kp => ¬(kp.2.last_seen < cutoff_date ∧ kp.2.frequency = 1)),
    old_errors ≠ [])

/-! ### `ErrorLearningTools.search_similar_errors` (`src/tools/error_tools.py`)

The similarity score `matches / len(search_terms)` is an exact ratio of
small naturals; the Python float is modelled as `Rat`. -/

/-- One element of the `similar_errors` result list (the dict built in the
loop body). -/
structure SimilarError where
  error_id : String
  similarity_score : Rat
  error_message : String
  frequency : Nat
  category : String
  severity : String
  solution : Option String
  prevention_tips : List String
  tool_name : Option String
  last_seen : Nat
deriving DecidableEq, Repr

/-- `search_terms = error_description.lower().split()`. -/
def searchTerms (error_description : String) : List String :=
  splitWs (strLower error_description)

/-- `matches = sum(1 for term in search_terms if term in pattern_text)`
where `pattern_text` is the lowered message-and-kind text. -/
def termMatches (terms : List String) (p : ErrorPattern) : Nat :=
  let pattern_text := strLower (p.error_message ++ " " ++ p.original_error)
  (terms.filter (fun t => strContains pattern_text t)).length

/-- `similarity = matches / len(search_terms) if search_terms else 0`
(the exact ratio, written with `mkRat`; `similarityScore_eq_div` below
relates it to field division). -/
def similarityScore (error_description : String) (p : ErrorPattern) : Rat :=
  let terms := searchTerms error_description
  if terms = [] then 0
  else mkRat (termMatches terms p) terms.length

/-- The result dict built for one matching pattern. -/
def similarEntry (error_description : String) (p : ErrorPattern) : SimilarError :=
  { error_id := p.error_id
    similarity_score := similarityScore error_description p
    error_message := p.error_message
    frequency := p.frequency
    category := p.category.value
    severity := p.severity.value
    solution := p.solution
    prevention_tips := p.prevention_tips
    tool_name := p.tool_name
    last_seen := p.last_seen }

/-- `sort(key = lambda x: (x['similarity_score'], x['frequency']), reverse = True)`
comparator: `a` may precede `b` when `key b <= key a` lexicographically. -/
def similarBefore (a b : SimilarError) : Prop :=
  b.similarity_score < a.similarity_score ∨
    (b.similarity_score = a.similarity_score ∧ b.frequency ≤ a.frequency)

instance : DecidableRel similarBefore := fun a b => by
  unfold similarBefore; exact inferInstance

/-- `ErrorLearningTools.search_similar_errors`: the `similar_errors` list of
the returned dict. `tool_name = none` models the argument being `None`
(the `if tool_name and ...` filter is skipped). -/
def search_similar_errors (error_description : String) (tool_name : Option String)
    (limit : Nat) (store : Store) : List SimilarError :=
  let candidates := (store.map Prod.snd).filter
    (fun p => match tool_name with
      | some tn => p.tool_name = some tn
      | none => True)
  let similar_errors := (candidates.filter
      (fun p => mkRat 3 10 < similarityScore error_description p)).map
    (similarEntry error_description)
  (List.insertionSort similarBefore similar_errors).take limit

/-! ### `capture_errors` / `capture_tool_errors` (`src/tools/error_wrapper.py`)

The wrapped coroutine and the learning-layer side effects are modelled by
their outcomes: `Except Exc α` for the wrapped call, `Except Exc Unit` for
the advice lookup, the post-success `ctx.debug` report, and the
capture-and-report block of the `except` handler. -/

/-- The `wrapper` coroutine of `ErrorCaptureMixin.capture_errors`:
advice failures are swallowed by the inner `try`; if the wrapped `func`
raises, the `except` block runs capture-and-report (its own failures
swallowed) and `raise e` re-raises the original exception. -/
def capture_errors_wrapper {α : Type} (advice : Except Exc Unit)
    (func : Except Exc α) (debugReport : Except Exc Unit)
    (captureAndReport : Except Exc Unit) : Except Exc α :=
  let _ := match advice with
    | .ok _ => ()
    | .error _ => ()   -- logger.debug; swallowed
  let body : Except Exc α :=
    match func with
    | .error e => .error e
    | .ok v =>
      match debugReport with
      | .error e => .error e
      | .ok _ => .ok v
  match body with
  | .ok v => .ok v
  | .error e =>
    let _ := match captureAndReport with
      | .ok _ => ()
      | .error _ => ()   -- logger.error; swallowed
    .error e

/-- The `wrapper` coroutine of the standalone `capture_tool_errors`
decorator: same shape, with no post-success report. -/
def capture_tool_errors_wrapper {α : Type} (advice : Except Exc Unit)
    (func : Except Exc α) (captureStep : Except Exc Unit) : Except Exc α :=
  let _ := match advice with
    | .ok _ => ()
    | .error _ => ()
  match func with
  | .ok v => .ok v
  | .error e =>
    let _ := match captureStep with
      | .ok _ => ()
      | .error _ => ()
    .error e

/-! ### Auxiliary definitions used by the verification statements -/

/-- `n` successive captures of the same failure (same exception, tool and
context) starting from an empty store; the `i`-th capture happens at time
`ts i`. -/
def captureN (error : Exc) (tool_name : String) (context_info : ContextInfo)
    (user_query : Option String) (ts : Nat → Nat) : Nat → Store
  | 0 => []
  | n + 1 =>
    (capture_error error tool_name context_info user_query (ts n)
      (captureN error tool_name context_info user_query ts n)).1

/-- Whether a pattern passes the optional tool filter of
`search_similar_errors`. -/
def toolMatch (tool_name : Option String) (p : ErrorPattern) : Prop :=
  match tool_name with
  | some tn => p.tool_name = some tn
  | none => True

instance (tn : Option String) (p : ErrorPattern) : Decidable (toolMatch tn p) := by
  unfold toolMatch; cases tn <;> exact inferInstance

/-- The survivor list as the specification words it: candidate patterns
(filtered by exact tool match when a tool is given) whose similarity is
strictly greater than 3/10, each turned into a result entry. -/
def claimSurvivors (error_description : String) (tool_name : Option String)
    (store : Store) : List SimilarError :=
  (((store.map Prod.snd).filter (fun p => toolMatch tool_name p)).filter
      (fun p => mkRat 3 10 < similarityScore error_description p)).map
    (similarEntry error_description)

/-- The ranked (pre-truncation) result list of `search_similar_errors`. -/
def rankedSimilar (error_description : String) (tool_name : Option String)
    (store : Store) : List SimilarError :=
  List.insertionSort similarBefore
    ((((store.map Prod.snd).filter
          (fun p => match tool_name with
            | some tn => p.tool_name = some tn
            | none => True)).filter
        (fun p => mkRat 3 10 < similarityScore error_description p)).map
      (similarEntry error_description))

/-- A frequency-5, low-severity pattern for the tool `"t"`. -/
def patLowFive : ErrorPattern :=
  { error_id := "low1"
    category := .unknown
    severity := .low
    error_message := "low severity failure"
    original_error := "RuntimeError"
    context_info := []
    solution := none
    prevention_tips := []
    frequency := 5
    first_seen := 0
    last_seen := 0
    tool_name := some "t"
    page_type := none
    query_context := none }

/-- A frequency-5, high-severity pattern for the same tool. -/
def patHighFive : ErrorPattern :=
  { patLowFive with
    error_id := "high1"
    severity := .high
    error_message := "high severity failure" }

/-- A stored document entry with recognized enumeration strings. -/
def goodDoc : PatternDoc :=
  { error_id := "good1"
    category := "selector"
    severity := "medium"
    error_message := "selector failed"
    original_error := "TimeoutError"
    context_info := []
    solution := none
    prevention_tips := []
    frequency := 2
    first_seen := 1
    last_seen := 4
    tool_name := some "t"
    page_type := none
    query_context := none }

/-- A stored document entry whose category string is not an
`ErrorCategory` member value. -/
def badDoc : PatternDoc :=
  { goodDoc with error_id := "bad1", category := "bogus" }

/-- A frequency-1 pattern whose `last_seen` is 31 days old at time 100. -/
def patOldOnce : ErrorPattern :=
  { patLowFive with error_id := "old1", frequency := 1, last_seen := 69 }

/-- A frequency-3 pattern whose `last_seen` is 31 days old at time 100. -/
def patOldThrice : ErrorPattern :=
  { patLowFive with error_id := "old3", frequency := 3, last_seen := 69 }

/-- A single pattern with frequency 3, recently seen at time 10. -/
def patFreqThree : ErrorPattern :=
  { patLowFive with error_id := "freq3", frequency := 3, last_seen := 10 }

/-- The `i`-th of 100 three-character witness tokens `t00` … `t99`. -/
def tok100 (i : Nat) : String :=
  "t" ++ (if i < 10 then "0" else "") ++ toString i

/-- A 100-token search description. -/
def simDesc : String :=
  String.intercalate " " ((List.range 100).map tok100)

/-- A pattern whose message holds exactly 31 of the 100 witness tokens, so
its similarity against `simDesc` is exactly 31/100. -/
def patThirtyOne : ErrorPattern :=
  { patLowFive with
    error_id := "sim31"
    error_message := String.intercalate " " ((List.range 31).map tok100) }

/-- A failure with a 101-character message ending in `X`. -/
def excLongX : Exc :=
  ⟨"TimeoutError", String.mk (List.replicate 100 'a' ++ ['X'])⟩

/-- A failure with the same first 100 message characters, then `Y`. -/
def excLongY : Exc :=
  ⟨"TimeoutError", String.mk (List.replicate 100 'a' ++ ['Y'])⟩

/-! ## Helper lemmas -/

lemma lookup_updateFirst_self (store : Store) (k : String)
    (f : ErrorPattern → ErrorPattern) (p : ErrorPattern)
    (h : List.lookup k store = some p) :
    List.lookup k (updateFirst store k f) = some (f p) := by
  induction store with
  | nil => simp [List.lookup] at h
  | cons kp rest ih =>
    rw [List.lookup] at h
    cases hbe : k == kp.1 with
    | true =>
      rw [hbe] at h
      simp only [Option.some.injEq] at h
      have hk : kp.1 = k := (eq_of_beq hbe).symm
      rw [updateFirst, if_pos hk, List.lookup, hbe, h]
    | false =>
      rw [hbe] at h
      have hk : ¬kp.1 = k := fun hh => by simp [hh] at hbe
      rw [updateFirst, if_neg hk, List.lookup, hbe]
      exact ih h

lemma lookup_updateFirst_ne (store : Store) (k k' : String)
    (f : ErrorPattern → ErrorPattern) (h : k' ≠ k) :
    List.lookup k' (updateFirst store k f) = List.lookup k' store := by
  induction store with
  | nil => rfl
  | cons kp rest ih =>
    by_cases hk : kp.1 = k
    · rw [updateFirst, if_pos hk, List.lookup, List.lookup]
      have hbe : (k' == kp.1) = false := by
        simp only [beq_eq_false_iff_ne, ne_eq]
        exact fun hh => h (hh.trans hk)
      rw [hbe]
    · rw [updateFirst, if_neg hk, List.lookup, List.lookup]
      cases hbe : k' == kp.1 <;> simp only
      exact ih

lemma updateFirst_length (store : Store) (k : String)
    (f : ErrorPattern → ErrorPattern) :
    (updateFirst store k f).length = store.length := by
  induction store with
  | nil => rfl
  | cons kp rest ih =>
    rw [updateFirst]
    split <;> simp [ih]

lemma lookup_append_none {β : Type} (k : String) (l l' : List (String × β))
    (h : List.lookup k l = none) :
    List.lookup k (l ++ l') = List.lookup k l' := by
  induction l with
  | nil => rfl
  | cons kp rest ih =>
    rw [List.lookup] at h
    rw [List.cons_append, List.lookup]
    cases hbe : k == kp.1 with
    | true => rw [hbe] at h; simp at h
    | false => rw [hbe] at h; exact ih h

/-- After capturing a failure, its signature keys a stored pattern. -/
lemma lookup_after_capture (error : Exc) (tool_name : String)
    (context_info : ContextInfo) (user_query : Option String) (now : Nat)
    (store : Store) :
    (List.lookup (generate_error_signature error tool_name context_info)
      (capture_error error tool_name context_info user_query now store).1).isSome := by
  cases h : List.lookup (generate_error_signature error tool_name context_info) store with
  | some p =>
    have h1 : (capture_error error tool_name context_info user_query now store).1 =
        updateFirst store (generate_error_signature error tool_name context_info)
          (bumpPattern now) := by
      simp only [capture_error, h]
    rw [h1, lookup_updateFirst_self store _ (bumpPattern now) p h]
    rfl
  | none =>
    have h1 : (capture_error error tool_name context_info user_query now store).1 =
        store ++ [(generate_error_signature error tool_name context_info,
          newPattern error tool_name context_info user_query now
            (generate_error_signature error tool_name context_info))] := by
      simp only [capture_error, h]
    rw [h1, lookup_append_none _ _ _ h, List.lookup]
    simp

/-- Capturing a failure whose signature is already stored keeps the number
of stored patterns unchanged. -/
lemma capture_length_of_mem (error : Exc) (tool_name : String)
    (context_info : ContextInfo) (user_query : Option String) (now : Nat)
    (store : Store)
    (h : (List.lookup (generate_error_signature error tool_name context_info)
      store).isSome) :
    (capture_error error tool_name context_info user_query now store).1.length =
      store.length := by
  rw [capture_error]
  cases hl : List.lookup (generate_error_signature error tool_name context_info) store with
  | some p => simp [updateFirst_length]
  | none => rw [hl] at h; simp at h

/-! ## Claims -/

/-- C9. When a wrapped operation throws, the interceptor's caller observes
the very same exception (same kind and message), for every outcome of the
advice lookup, the post-success report and the capture-and-report block:
the interceptor never swallows or transforms the underlying failure. This
holds for both the mixin wrapper and the standalone decorator. -/
theorem wrapper_reraises_original {α : Type} (advice : Except Exc Unit)
    (func : Except Exc α) (debugReport : Except Exc Unit)
    (captureAndReport : Except Exc Unit) (e : Exc) (h : func = .error e) :
    capture_errors_wrapper advice func debugReport captureAndReport = .error e ∧
      capture_tool_errors_wrapper advice func captureAndReport = .error e := by
  subst h
  constructor <;> rfl

theorem wrapper_reraises_original_witness :
    capture_errors_wrapper (α := Nat) (.error ⟨"AdviceError", "advice failed"⟩)
        (.error ⟨"TimeoutError", "timeout 30000ms exceeded"⟩)
        (.error ⟨"ReportError", "ctx failed"⟩)
        (.error ⟨"CaptureError", "disk full"⟩) =
      .error ⟨"TimeoutError", "timeout 30000ms exceeded"⟩ ∧
    capture_tool_errors_wrapper (α := Nat) (.error ⟨"AdviceError", "advice failed"⟩)
        (.error ⟨"TimeoutError", "timeout 30000ms exceeded"⟩)
        (.error ⟨"CaptureError", "disk full"⟩) =
      .error ⟨"TimeoutError", "timeout 30000ms exceeded"⟩ :=
  wrapper_reraises_original _ _ _ _ _ rfl

/-- C10. When the lower-cased description splits into no tokens, every
candidate's similarity is defined to be 0 (no division by zero), so the
similar-errors list is empty whatever the store holds. -/
theorem empty_description_similarity_zero (error_description : String)
    (tool_name : Option String) (limit : Nat) (store : Store)
    (h : searchTerms error_description = []) :
    (∀ p : ErrorPattern, similarityScore error_description p = 0) ∧
      search_similar_errors error_description tool_name limit store = [] := by
  have hz : ∀ p : ErrorPattern, similarityScore error_description p = 0 := by
    intro p
    rw [similarityScore]
    simp [h]
  refine ⟨hz, ?_⟩
  rw [search_similar_errors]
  have hf : ∀ l : List ErrorPattern,
      l.filter (fun p => decide (mkRat 3 10 < similarityScore error_description p)) = [] := by
    intro l
    apply List.filter_eq_nil_iff.2
    intro p _
    rw [hz p]
    norm_num
  simp [hf]

theorem empty_description_similarity_zero_witness :
    similarityScore "   " patLowFive = 0 ∧
      search_similar_errors "   " none 5 [("a", patLowFive)] = [] :=
  ⟨(empty_description_similarity_zero "   " none 5 [("a", patLowFive)] (by decide)).1
      patLowFive,
   (empty_description_similarity_zero "   " none 5 [("a", patLowFive)] (by decide)).2⟩

lemma category_fromValue_value (c : ErrorCategory) :
    ErrorCategory.fromValue c.value = some c := by
  cases c <;> rfl

lemma severity_fromValue_value (s : ErrorSeverity) :
    ErrorSeverity.fromValue s.value = some s := by
  cases s <;> rfl

lemma parse_savePattern (p : ErrorPattern) :
    parsePattern (savePattern p) = some p := by
  rw [parsePattern, savePattern]
  simp only [category_fromValue_value, severity_fromValue_value, Option.bind_some,
    Option.some.injEq]
  rfl

/-- C4. Persisting the whole pattern collection and reloading it restores an
identical collection, entry for entry under the same fingerprints, with
`category` and `severity` carried through their enumeration string values
(`fromValue` inverts `value` on every member). -/
theorem save_load_roundtrip :
    (∀ c : ErrorCategory, ErrorCategory.fromValue c.value = some c) ∧
    (∀ s : ErrorSeverity, ErrorSeverity.fromValue s.value = some s) ∧
    (∀ store : Store, load_errors (some (save_errors store)) = store) := by
  refine ⟨category_fromValue_value, severity_fromValue_value, ?_⟩
  intro store
  have hall : parseAll (save_errors store) = some store := by
    induction store with
    | nil => rfl
    | cons kp rest ih =>
      rw [save_errors] at ih ⊢
      rw [List.map_cons, parseAll, parse_savePattern]
      simp [ih]
  rw [load_errors, hall]

/-- C5 counterexample. A stored document holding one entirely valid entry
and one entry with an unrecognized category string does not keep the valid
entry: the load comes back empty, although the valid entry parses on its
own. The single `try`/`except` wraps the whole loop, so one bad entry
discards every entry. -/
theorem load_drops_valid_entries_counterexample :
    load_errors (some [("good1", goodDoc), ("bad1", badDoc)]) = [] ∧
      (∃ p : ErrorPattern, parsePattern goodDoc = some p) ∧
      ErrorCategory.fromValue badDoc.category = none := by
  refine ⟨by decide, ⟨_, rfl⟩, by decide⟩

/-- C5 amended. Loading never raises and a missing or wholly corrupt store
yields an empty collection; but one entry with an unrecognized category or
severity string aborts the whole load and leaves the collection empty —
valid entries of the same document are discarded, not kept. Only a document
whose every entry parses is loaded, and then in full. -/
theorem load_aborts_on_bad_entry :
    load_errors none = [] ∧
    (∀ (doc : List (String × PatternDoc)) (k : String) (d : PatternDoc),
      (k, d) ∈ doc → parsePattern d = none → load_errors (some doc) = []) ∧
    (∀ (doc : List (String × PatternDoc)) (st : Store),
      parseAll doc = some st → load_errors (some doc) = st) := by
  refine ⟨rfl, ?_, ?_⟩
  · intro doc k d hmem hbad
    have habort : parseAll doc = none := by
      induction doc with
      | nil => simp at hmem
      | cons kd rest ih =>
        rw [parseAll]
        rcases List.mem_cons.1 hmem with hhd | htl
        · subst hhd
          rw [show (k, d).2 = d from rfl, hbad]
          rfl
        · cases hp : parsePattern kd.2 with
          | none => rfl
          | some p => rw [ih htl]; rfl
    rw [load_errors, habort]
  · intro doc st hall
    rw [load_errors, hall]

theorem load_aborts_on_bad_entry_witness :
    load_errors none = [] ∧
      load_errors (some [("good1", goodDoc), ("bad1", badDoc)]) = [] ∧
      load_errors (some [("good1", goodDoc)]) =
        [("good1", { goodDoc with
          category := ErrorCategory.selector,
          severity := ErrorSeverity.medium,
          error_id := goodDoc.error_id,
          error_message := goodDoc.error_message,
          original_error := goodDoc.original_error,
          context_info := goodDoc.context_info,
          solution := goodDoc.solution,
          prevention_tips := goodDoc.prevention_tips,
          frequency := goodDoc.frequency,
          first_seen := goodDoc.first_seen,
          last_seen := goodDoc.last_seen,
          tool_name := goodDoc.tool_name,
          page_type := goodDoc.page_type,
          query_context := goodDoc.query_context })] :=
  ⟨load_aborts_on_bad_entry.1,
   load_aborts_on_bad_entry.2.1 [("good1", goodDoc), ("bad1", badDoc)] "bad1" badDoc
     (by decide) (by decide),
   load_aborts_on_bad_entry.2.2 [("good1", goodDoc)] _ (by decide)⟩

/-- C7. `clear_old_errors(days)` keeps exactly the entries that are not
(frequency 1 and `last_seen` older than the cutoff), persists precisely when
something was removed, never removes a recurring pattern, and on the
concrete 31-days-old example removes the frequency-1 pattern while
retaining the frequency-3 one. -/
theorem clear_old_errors_spec :
    (∀ (now days : Nat) (store : Store) (kp : String × ErrorPattern),
      (kp ∈ (clear_old_errors now days store).1 ↔
        kp ∈ store ∧ ¬(kp.2.last_seen < now - days ∧ kp.2.frequency = 1))) ∧
    (∀ (now days : Nat) (store : Store),
      ((clear_old_errors now days store).2 = true ↔
        ∃ kp ∈ store, kp.2.last_seen < now - days ∧ kp.2.frequency = 1)) ∧
    (∀ (now days : Nat) (store : Store) (kp : String × ErrorPattern),
      kp ∈ store → 2 ≤ kp.2.frequency → kp ∈ (clear_old_errors now days store).1) ∧
    clear_old_errors 100 30 [("old1", patOldOnce), ("old3", patOldThrice)] =
      ([("old3", patOldThrice)], true) := by
  have hmem : ∀ (now days : Nat) (store : Store) (kp : String × ErrorPattern),
      kp ∈ (clear_old_errors now days store).1 ↔
        kp ∈ store ∧ ¬(kp.2.last_seen < now - days ∧ kp.2.frequency = 1) := by
    intro now days store kp
    rw [clear_old_errors]
    simp only [List.mem_filter, decide_eq_true_eq]
  refine ⟨hmem, ?_, ?_, by decide⟩
  · intro now days store
    rw [clear_old_errors]
    simp only [decide_eq_true_eq, ne_eq]
    constructor
    · intro hne
      rcases List.exists_mem_of_ne_nil _ hne with ⟨kp, hkp⟩
      rcases List.mem_filter.1 hkp with ⟨hm, hcond⟩
      simp only [decide_eq_true_eq] at hcond
      exact ⟨kp, hm, hcond⟩
    · intro ⟨kp, hm, h1, h2⟩
      apply List.ne_nil_of_mem (a := kp)
      exact List.mem_filter.2 ⟨hm, by simp only [decide_eq_true_eq]; exact ⟨h1, h2⟩⟩
  · intro now days store kp hm hf
    exact (hmem now days store kp).2 ⟨hm, fun hc => by omega⟩

theorem clear_old_errors_spec_witness :
    ("old3", patOldThrice) ∈
      (clear_old_errors 100 30 [("old1", patOldOnce), ("old3", patOldThrice)]).1 ∧
    (clear_old_errors 100 30 [("old1", patOldOnce), ("old3", patOldThrice)]).2 = true :=
  ⟨clear_old_errors_spec.2.2.1 100 30 [("old1", patOldOnce), ("old3", patOldThrice)]
     ("old3", patOldThrice) (by decide) (by decide),
   (clear_old_errors_spec.2.1 100 30 [("old1", patOldOnce), ("old3", patOldThrice)]).2
     ⟨("old1", patOldOnce), by decide, by decide, by decide⟩⟩

/-- C2. The fingerprint is deterministic: identical inputs give the
identical signature string; two failures agreeing on exception kind, the
first 100 characters of the message, tool name and `page_type` get the same
signature; and consequently capturing the second failure right after the
first adds no new stored pattern — both map to the same entry. -/
theorem fingerprint_deterministic :
    (∀ (error : Exc) (tool_name : String) (context : ContextInfo),
      generate_error_signature error tool_name context =
        generate_error_signature error tool_name context) ∧
    (∀ (e1 e2 : Exc) (tool_name : String) (c1 c2 : ContextInfo),
      e1.kind = e2.kind → strTake e1.msg 100 = strTake e2.msg 100 →
      c1.get "page_type" = c2.get "page_type" →
      generate_error_signature e1 tool_name c1 =
        generate_error_signature e2 tool_name c2) ∧
    (∀ (e1 e2 : Exc) (tool_name : String) (c1 c2 : ContextInfo)
        (q1 q2 : Option String) (t1 t2 : Nat) (store : Store),
      e1.kind = e2.kind → strTake e1.msg 100 = strTake e2.msg 100 →
      c1.get "page_type" = c2.get "page_type" →
      (capture_error e2 tool_name c2 q2 t2
          (capture_error e1 tool_name c1 q1 t1 store).1).1.length =
        (capture_error e1 tool_name c1 q1 t1 store).1.length) := by
  have hcong : ∀ (e1 e2 : Exc) (tool_name : String) (c1 c2 : ContextInfo),
      e1.kind = e2.kind → strTake e1.msg 100 = strTake e2.msg 100 →
      c1.get "page_type" = c2.get "page_type" →
      generate_error_signature e1 tool_name c1 =
        generate_error_signature e2 tool_name c2 := by
    intro e1 e2 tool_name c1 c2 hk hm hc
    rw [generate_error_signature, generate_error_signature, hk, hm, hc]
  refine ⟨fun _ _ _ => rfl, hcong, ?_⟩
  intro e1 e2 tool_name c1 c2 q1 q2 t1 t2 store hk hm hc
  apply capture_length_of_mem
  rw [hcong e2 e1 tool_name c2 c1 hk.symm hm.symm hc.symm]
  exact lookup_after_capture e1 tool_name c1 q1 t1 store

theorem fingerprint_deterministic_witness :
    generate_error_signature excLongX "search_products"
        [("page_type", "search_results")] =
      generate_error_signature excLongY "search_products"
        [("other", "v"), ("page_type", "search_results")] ∧
    (capture_error excLongY "search_products"
        [("other", "v"), ("page_type", "search_results")] none 7
        (capture_error excLongX "search_products"
          [("page_type", "search_results")] (some "q") 3 []).1).1.length =
      (capture_error excLongX "search_products"
        [("page_type", "search_results")] (some "q") 3 []).1.length :=
  ⟨fingerprint_deterministic.2.1 excLongX excLongY "search_products"
     [("page_type", "search_results")] [("other", "v"), ("page_type", "search_results")]
     (by decide) (by decide) (by decide),
   fingerprint_deterministic.2.2 excLongX excLongY "search_products"
     [("page_type", "search_results")] [("other", "v"), ("page_type", "search_results")]
     (some "q") none 3 7 [] (by decide) (by decide) (by decide)⟩

/-- C3. Capturing a failure whose fingerprint is already stored changes
only that entry's `frequency` (by exactly 1) and `last_seen` (to the
capture time) — the record-update form fixes every other field, whatever
the new occurrence would classify as — leaves every other key's binding
untouched and the store size unchanged; and capturing the same failure
`n + 1` times from an empty store yields exactly one pattern whose
`frequency` is `n + 1`, whose `first_seen` is still the first capture time
and whose `last_seen` is the last capture time. -/
theorem capture_updates_only_frequency_and_last_seen :
    (∀ (error : Exc) (tool_name : String) (context_info : ContextInfo)
        (user_query : Option String) (now : Nat) (store : Store) (p : ErrorPattern),
      List.lookup (generate_error_signature error tool_name context_info) store =
        some p →
      (capture_error error tool_name context_info user_query now store).2 =
        generate_error_signature error tool_name context_info ∧
      List.lookup (generate_error_signature error tool_name context_info)
          (capture_error error tool_name context_info user_query now store).1 =
        some { p with frequency := p.frequency + 1, last_seen := now } ∧
      (∀ k : String, k ≠ generate_error_signature error tool_name context_info →
        List.lookup k (capture_error error tool_name context_info user_query now store).1 =
          List.lookup k store) ∧
      (capture_error error tool_name context_info user_query now store).1.length =
        store.length) ∧
    (∀ (error : Exc) (tool_name : String) (context_info : ContextInfo)
        (user_query : Option String) (ts : Nat → Nat) (n : Nat),
      captureN error tool_name context_info user_query ts (n + 1) =
        [(generate_error_signature error tool_name context_info,
          { newPattern error tool_name context_info user_query (ts 0)
              (generate_error_signature error tool_name context_info) with
            frequency := n + 1, last_seen := ts n })]) := by
  constructor
  · intro error tool_name context_info user_query now store p h
    have h1 : (capture_error error tool_name context_info user_query now store).1 =
        updateFirst store (generate_error_signature error tool_name context_info)
          (bumpPattern now) := by
      simp only [capture_error, h]
    have h2 : (capture_error error tool_name context_info user_query now store).2 =
        generate_error_signature error tool_name context_info := by
      simp only [capture_error, h]
    refine ⟨h2, ?_, ?_, ?_⟩
    · rw [h1, lookup_updateFirst_self store _ _ p h]
      rfl
    · intro k hk
      rw [h1, lookup_updateFirst_ne store _ k _ hk]
    · rw [h1, updateFirst_length]
  · intro error tool_name context_info user_query ts n
    induction n with
    | zero =>
      show (capture_error error tool_name context_info user_query (ts 0) []).1 = _
      have h0 : List.lookup (generate_error_signature error tool_name context_info)
          ([] : Store) = none := rfl
      simp only [capture_error, h0, List.nil_append]
      rfl
    | succ m ih =>
      show (capture_error error tool_name context_info user_query (ts (m + 1))
        (captureN error tool_name context_info user_query ts (m + 1))).1 = _
      rw [ih]
      have hl : List.lookup (generate_error_signature error tool_name context_info)
          [(generate_error_signature error tool_name context_info,
            { newPattern error tool_name context_info user_query (ts 0)
                (generate_error_signature error tool_name context_info) with
              frequency := m + 1, last_seen := ts m })] =
          some { newPattern error tool_name context_info user_query (ts 0)
              (generate_error_signature error tool_name context_info) with
            frequency := m + 1, last_seen := ts m } := by
        simp [List.lookup]
      simp only [capture_error, hl, updateFirst, if_pos rfl]
      rfl

theorem capture_updates_only_frequency_and_last_seen_witness :
    List.lookup (generate_error_signature excLongX "t" [])
        (capture_error excLongX "t" [] none 9
          [(generate_error_signature excLongX "t" [], patLowFive)]).1 =
      some { patLowFive with frequency := 6, last_seen := 9 } ∧
    captureN excLongX "t" [] none (fun i => 2 * i) 3 =
      [(generate_error_signature excLongX "t" [],
        { newPattern excLongX "t" [] none 0 (generate_error_signature excLongX "t" [])
            with frequency := 3, last_seen := 4 })] := by
  constructor
  · have h := (capture_updates_only_frequency_and_last_seen.1 excLongX "t" [] none 9
      [(generate_error_signature excLongX "t" [], patLowFive)] patLowFive
      (by simp [List.lookup])).2.1
    exact h
  · have h := capture_updates_only_frequency_and_last_seen.2 excLongX "t" [] none
      (fun i => 2 * i) 2
    exact h

/-- C1. The advice sort key is `(x.frequency, x.severity.value)` where
`severity.value` is the enumeration's *string*; at equal frequency the
severities are therefore compared alphabetically, where "low" sorts after
"high". On a store holding two frequency-5 patterns for tool `"t"` — the
high-severity one stored first — the low-severity pattern comes out first
with priority 5 and the high-severity one second with priority 4,
contradicting the claimed order low < medium < high < critical. -/
theorem advice_sorts_severity_alphabetically :
    patLowFive.severity = ErrorSeverity.low ∧
    patHighFive.severity = ErrorSeverity.high ∧
    patLowFive.frequency = patHighFive.frequency ∧
    (get_prevention_advice "t" [] none [("a", patHighFive), ("b", patLowFive)]).map
        (fun r => (r.related_errors, r.priority)) =
      [(["low1"], 5), (["high1"], 4)] := by
  refine ⟨rfl, rfl, rfl, by decide⟩

/-- C6 counterexample. With a single stored pattern of frequency 3 — so
fewer than 3 patterns have frequency ≥ 3 — the "frequent errors" suggestion
is nevertheless produced: the code emits it as soon as the high-frequency
list is non-empty, not when it has at least 3 members. -/
theorem suggestions_frequent_flag_counterexample :
    freqMsg 1 ∈ generate_learning_suggestions 10 [patFreqThree] ∧
      ([patFreqThree].filter (fun p => 3 ≤ p.frequency)).length = 1 := by
  refine ⟨by decide, by decide⟩

lemma freqMsg_ne_catMsg (n : Nat) (c : String) : freqMsg n ≠ catMsg c := by
  intro h
  have hX : (freqMsg n).data.head? = some 'S' := by
    rw [freqMsg, String.data_append]; rfl
  have hY : (catMsg c).data.head? = some 'L' := by
    rw [catMsg, String.data_append]; rfl
  rw [h, hY] at hX
  exact absurd hX (by decide)

lemma freqMsg_ne_recentMsg (n : Nat) : freqMsg n ≠ recentMsg := by
  intro h
  have hX : (freqMsg n).data.head? = some 'S' := by
    rw [freqMsg, String.data_append]; rfl
  rw [h] at hX
  exact absurd hX (by decide)

lemma recentMsg_ne_catMsg (c : String) : recentMsg ≠ catMsg c := by
  intro h
  have hX : recentMsg.data.head? = some 'M' := by decide
  have hY : (catMsg c).data.head? = some 'L' := by
    rw [catMsg, String.data_append]; rfl
  rw [h, hY] at hX
  exact absurd hX (by decide)

lemma categoryBump_ne_nil (acc : List (String × Nat)) (p : ErrorPattern) :
    categoryBump acc p ≠ [] := by
  rw [categoryBump]
  cases hl : List.lookup p.category.value acc with
  | some n =>
    simp only []
    intro hmap
    rw [List.map_eq_nil_iff.1 hmap] at hl
    simp [List.lookup] at hl
  | none =>
    simp only []
    intro happ
    rcases List.append_eq_nil.1 happ with ⟨_, habs⟩
    simp at habs

lemma categoryCounts_ne_nil (patterns : List ErrorPattern) (h : patterns ≠ []) :
    categoryCounts patterns ≠ [] := by
  rcases List.eq_nil_or_concat patterns with hnil | ⟨l, x, rfl⟩
  · exact absurd hnil h
  · rw [categoryCounts, List.concat_eq_append, List.foldl_append, List.foldl_cons,
      List.foldl_nil]
    exact categoryBump_ne_nil _ _

/-- C6 amended. For every non-empty pattern collection the learning
suggestions number at most 3; the "frequent errors" suggestion is present
iff at least ONE pattern has frequency ≥ 3 (the code tests the
high-frequency list for non-emptiness, not for having 3 members); a
suggestion naming the most-error-heavy category is always present; and the
"many errors are recent" suggestion is present iff strictly more than half
of the patterns have `last_seen` within the last 3 days. -/
theorem learning_suggestions_amended (now : Nat) (patterns : List ErrorPattern)
    (h : patterns ≠ []) :
    (generate_learning_suggestions now patterns).length ≤ 3 ∧
    ((∃ n, freqMsg n ∈ generate_learning_suggestions now patterns) ↔
      ∃ p ∈ patterns, 3 ≤ p.frequency) ∧
    (∃ c, maxByCount (categoryCounts patterns) = some c ∧
      catMsg c ∈ generate_learning_suggestions now patterns) ∧
    (recentMsg ∈ generate_learning_suggestions now patterns ↔
      patterns.length < 2 * (patterns.filter (fun p => now - 3 ≤ p.last_seen)).length) := by
  obtain ⟨c0, cs, hcc⟩ : ∃ c0 cs, categoryCounts patterns = c0 :: cs := by
    cases hc : categoryCounts patterns with
    | nil => exact absurd hc (categoryCounts_ne_nil patterns h)
    | cons c0 cs => exact ⟨c0, cs, rfl⟩
  have hmax : maxByCount (categoryCounts patterns) =
      some (cs.foldl (fun best kv => if best.2 < kv.2 then kv else best) c0).1 := by
    rw [hcc, maxByCount]
  set cbest := (cs.foldl (fun best kv => if best.2 < kv.2 then kv else best) c0).1
  have hout : generate_learning_suggestions now patterns =
      (if patterns.filter (fun p => 3 ≤ p.frequency) ≠ [] then
        [freqMsg (patterns.filter (fun p => 3 ≤ p.frequency)).length] else []) ++
      [catMsg cbest] ++
      (if patterns.length <
          2 * (patterns.filter (fun p => now - 3 ≤ p.last_seen)).length then
        [recentMsg] else []) := by
    rw [generate_learning_suggestions, if_neg h]
    simp only [hmax]
  refine ⟨?_, ?_, ?_, ?_⟩
  · rw [hout]
    split_ifs <;> simp
  · constructor
    · rintro ⟨n, hn⟩
      by_cases hfil : patterns.filter (fun p => 3 ≤ p.frequency) = []
      · rw [hout, if_neg (fun hc => hc hfil)] at hn
        simp only [List.nil_append, List.mem_append, List.mem_singleton] at hn
        rcases hn with hcat | hs3
        · exact absurd hcat (freqMsg_ne_catMsg n cbest)
        · have : freqMsg n = recentMsg := by
            by_cases hrec : patterns.length <
                2 * (patterns.filter (fun p => now - 3 ≤ p.last_seen)).length
            · rw [if_pos hrec] at hs3
              simpa using hs3
            · rw [if_neg hrec] at hs3
              simp at hs3
          exact absurd this (freqMsg_ne_recentMsg n)
      · rcases List.exists_mem_of_ne_nil _ hfil with ⟨p, hp⟩
        rcases List.mem_filter.1 hp with ⟨hp1, hp2⟩
        exact ⟨p, hp1, by simpa using hp2⟩
    · rintro ⟨p, hp, hf3⟩
      have hfil : patterns.filter (fun p => 3 ≤ p.frequency) ≠ [] :=
        List.ne_nil_of_mem (List.mem_filter.2 ⟨hp, by simpa using hf3⟩)
      refine ⟨(patterns.filter (fun p => 3 ≤ p.frequency)).length, ?_⟩
      rw [hout, if_pos hfil]
      simp
  · refine ⟨cbest, hmax, ?_⟩
    rw [hout]
    simp
  · constructor
    · intro hmem
      by_contra hrec
      rw [hout, if_neg hrec] at hmem
      simp only [List.append_nil, List.mem_append, List.mem_singleton] at hmem
      rcases hmem with hs1 | hcat
      · have : recentMsg = freqMsg (patterns.filter (fun p => 3 ≤ p.frequency)).length := by
          by_cases hfil : patterns.filter (fun p => 3 ≤ p.frequency) ≠ []
          · rw [if_pos hfil] at hs1
            simpa using hs1
          · rw [if_neg hfil] at hs1
            simp at hs1
        exact absurd this.symm (freqMsg_ne_recentMsg _)
      · exact absurd hcat (recentMsg_ne_catMsg cbest)
    · intro hrec
      rw [hout, if_pos hrec]
      simp

theorem learning_suggestions_amended_witness :
    (generate_learning_suggestions 10 [patFreqThree]).length ≤ 3 ∧
      (∃ n, freqMsg n ∈ generate_learning_suggestions 10 [patFreqThree]) ∧
      (∃ c, maxByCount (categoryCounts [patFreqThree]) = some c ∧
        catMsg c ∈ generate_learning_suggestions 10 [patFreqThree]) :=
  ⟨(learning_suggestions_amended 10 [patFreqThree] (by decide)).1,
   (learning_suggestions_amended 10 [patFreqThree] (by decide)).2.1.2
     ⟨patFreqThree, by decide, by decide⟩,
   (learning_suggestions_amended 10 [patFreqThree] (by decide)).2.2.1⟩

lemma similarBefore_total : ∀ a b : SimilarError,
    similarBefore a b ∨ similarBefore b a := by
  intro a b
  rcases lt_trichotomy a.similarity_score b.similarity_score with hlt | heq | hgt
  · exact Or.inr (Or.inl hlt)
  · rcases Nat.le_total a.frequency b.frequency with hf | hf
    · exact Or.inr (Or.inr ⟨heq, hf⟩)
    · exact Or.inl (Or.inr ⟨heq.symm, hf⟩)
  · exact Or.inl (Or.inl hgt)

lemma similarBefore_trans : ∀ a b c : SimilarError,
    similarBefore a b → similarBefore b c → similarBefore a c := by
  rintro a b c (hab | ⟨hab, haf⟩) (hbc | ⟨hbc, hbf⟩)
  · exact Or.inl (hbc.trans hab)
  · exact Or.inl (hbc ▸ hab)
  · exact Or.inl (hab ▸ hbc)
  · exact Or.inr ⟨hbc.trans hab, hbf.trans haf⟩

/-- `similarityScore` is the exact quotient of the match count by the token
count whenever there is at least one token. -/
lemma similarityScore_eq_div (error_description : String) (p : ErrorPattern)
    (h : searchTerms error_description ≠ []) :
    similarityScore error_description p =
      (termMatches (searchTerms error_description) p : Rat) /
        ((searchTerms error_description).length : Rat) := by
  rw [similarityScore]
  simp only [if_neg h]
  rw [Rat.mkRat_eq_div]
  norm_num

/-- C8. The similar-errors search truncates to `limit` a ranking that is a
permutation of exactly the claim's survivor list (tool-filtered candidates
with similarity strictly above 3/10, where similarity is the ratio of
matching tokens to total tokens); the ranking is sorted descending by
(similarity, frequency); every returned entry has similarity strictly above
3/10 (exactly 3/10 is excluded); and a candidate with similarity exactly
31/100 survives into the ranking. -/
theorem search_similar_ranked_filtered (error_description : String)
    (tool_name : Option String) (limit : Nat) (store : Store) :
    search_similar_errors error_description tool_name limit store =
      (rankedSimilar error_description tool_name store).take limit ∧
    (∀ p : ErrorPattern, searchTerms error_description ≠ [] →
      similarityScore error_description p =
        (termMatches (searchTerms error_description) p : Rat) /
          ((searchTerms error_description).length : Rat)) ∧
    (rankedSimilar error_description tool_name store).Perm
      (claimSurvivors error_description tool_name store) ∧
    List.Sorted similarBefore (rankedSimilar error_description tool_name store) ∧
    (∀ x ∈ search_similar_errors error_description tool_name limit store,
      (3 : Rat) / 10 < x.similarity_score) ∧
    (∀ p : ErrorPattern, p ∈ store.map Prod.snd → toolMatch tool_name p →
      similarityScore error_description p = (31 : Rat) / 100 →
      similarEntry error_description p ∈
        rankedSimilar error_description tool_name store) := by
  have hthr : mkRat 3 10 = (3 : Rat) / 10 := by
    rw [Rat.mkRat_eq_div]; norm_num
  have hfil : ((store.map Prod.snd).filter
        (fun p => match tool_name with
          | some tn => p.tool_name = some tn
          | none => True)) =
      ((store.map Prod.snd).filter (fun p => toolMatch tool_name p)) := by
    apply List.filter_congr
    intro p _
    cases tool_name <;> simp [toolMatch]
  have hperm : (rankedSimilar error_description tool_name store).Perm
      (claimSurvivors error_description tool_name store) := by
    rw [rankedSimilar, claimSurvivors, hfil]
    exact List.perm_insertionSort similarBefore _
  refine ⟨rfl, fun p h => similarityScore_eq_div error_description p h, hperm, ?_, ?_, ?_⟩
  · haveI : IsTotal SimilarError similarBefore := ⟨similarBefore_total⟩
    haveI : IsTrans SimilarError similarBefore := ⟨similarBefore_trans⟩
    exact List.sorted_insertionSort similarBefore _
  · intro x hx
    have hx1 : x ∈ rankedSimilar error_description tool_name store :=
      List.mem_of_mem_take hx
    have hx2 : x ∈ claimSurvivors error_description tool_name store :=
      hperm.mem_iff.1 hx1
    rw [claimSurvivors] at hx2
    rcases List.mem_map.1 hx2 with ⟨p, hp, rfl⟩
    rcases List.mem_filter.1 hp with ⟨_, hcond⟩
    have : mkRat 3 10 < similarityScore error_description p := by
      simpa using hcond
    rw [hthr] at this
    exact this
  · intro p hp htool hsim
    rw [hperm.mem_iff, claimSurvivors]
    apply List.mem_map.2
    refine ⟨p, List.mem_filter.2 ⟨List.mem_filter.2 ⟨hp, by simpa using htool⟩, ?_⟩, rfl⟩
    simp only [decide_eq_true_eq]
    rw [hsim, hthr]
    norm_num

set_option maxRecDepth 100000 in
theorem search_similar_ranked_filtered_witness :
    similarityScore simDesc patThirtyOne =
      (termMatches (searchTerms simDesc) patThirtyOne : Rat) /
        ((searchTerms simDesc).length : Rat) ∧
    similarEntry simDesc patThirtyOne ∈ rankedSimilar simDesc none [("a", patThirtyOne)] ∧
    (3 : Rat) / 10 < (similarEntry "low failure" patLowFive).similarity_score := by
  have thm1 := search_similar_ranked_filtered simDesc none 5 [("a", patThirtyOne)]
  have hsim : similarityScore simDesc patThirtyOne = (31 : Rat) / 100 := by
    have h31 : similarityScore simDesc patThirtyOne = mkRat 31 100 := by decide
    rw [h31, Rat.mkRat_eq_div]
    norm_num
  refine ⟨thm1.2.1 patThirtyOne (by decide),
    thm1.2.2.2.2.2 patThirtyOne (by decide) trivial hsim, ?_⟩
  have thm2 := search_similar_ranked_filtered "low failure" none 5 [("b", patLowFive)]
  exact thm2.2.2.2.2.1 (similarEntry "low failure" patLowFive) (by decide)

end MLErrors
